import Mathlib

/-!
Verification development for the ModbusKit reference validation servers
(`docker/pymodbus-server/reference_server.py` and
`docker/pymodbus-tls-server/tls_reference_server.py`).

The two Python programs are thin glue around the pymodbus library: they seed a
datastore, build a device-identification mapping, configure (for the TLS
variant) an SSL context, bind a server, print the bound port on stdout, wait
for a shutdown signal and stop.  We embed that glue shallowly: pure data
(seeding lists, identity mapping, SSL-context record) is translated directly
from the source; the effectful entry points become functions producing an
explicit trace of observable events (stdout lines, stderr lines, blocking on
the shutdown signal, stopping the server) together with an exit code; the
environment the code queries (whether pymodbus imports, which files exist,
what the bound transport's sockets report) is passed in explicitly.
-/

set_option maxRecDepth 100000

/-- JSON values as produced by the dictionaries the servers pass to
`json.dumps` (only the shapes that actually occur: strings, numbers,
booleans, and `None`). -/
inductive JsonValue where
  | str (s : String)
  | num (n : Nat)
  | bool (b : Bool)
  | null
  deriving DecidableEq, Repr

/-- Observable events of a server process: a line printed to stdout
(always flushed in the source), a JSON object printed to stdout
(`--json` mode), a line printed to stderr, blocking on the shutdown
event (`await shutdown_event.wait()`), and shutting the bound server
down. -/
inductive Event where
  | stdoutLine (s : String)
  | stdoutJson (obj : List (String × JsonValue))
  | stderrLine (s : String)
  | awaitShutdown
  | shutdownServer
  deriving DecidableEq, Repr

/-- Is this event the blocking wait on the shutdown signal? -/
def Event.isAwait : Event → Bool
  | .awaitShutdown => true
  | _ => false

/-- Is this event an emission on standard output? -/
def Event.isStdout : Event → Bool
  | .stdoutLine _ => true
  | .stdoutJson _ => true
  | _ => false

/-- The stdout emissions of a trace, in order. -/
def stdoutEvents (evs : List Event) : List Event :=
  evs.filter Event.isStdout

/-- The part of the trace before the process blocks awaiting shutdown. -/
def beforeAwait (evs : List Event) : List Event :=
  evs.takeWhile (fun e => !e.isAwait)

/-- Python prints an `int | None` value as either its digits or `None`;
`f-string` interpolation of `actual_port` goes through this. -/
def portString : Option Nat → String
  | some v => toString v
  | none => "None"

/-- A pymodbus `ModbusSequentialDataBlock(0, values)`: a zero-based densely
addressed block holding the given values. -/
structure ModbusSequentialDataBlock (α : Type) where
  values : List α
  deriving DecidableEq

/-- Modelled from the spec: the register-store read contract of §4.1
(`read(space, address, quantity)` returns the `quantity` values starting at
`address`, and fails with IllegalDataAddress when `address + quantity`
exceeds the space size).  The implementation of `read` lives in the
third-party pymodbus library, not in this repository. -/
def ModbusSequentialDataBlock.read (b : ModbusSequentialDataBlock α)
    (address quantity : Nat) : Option (List α) :=
  if address + quantity ≤ b.values.length then
    some ((b.values.drop address).take quantity)
  else
    none

/-- A pymodbus `ModbusDeviceContext(co=..., di=..., hr=..., ir=...)`: the four
register spaces of one logical device. -/
structure ModbusDeviceContext where
  co : ModbusSequentialDataBlock Bool
  di : ModbusSequentialDataBlock Bool
  hr : ModbusSequentialDataBlock Nat
  ir : ModbusSequentialDataBlock Nat
  deriving DecidableEq

/-- A pymodbus `ModbusServerContext(devices=store, single=True)`. -/
structure ModbusServerContext where
  devices : ModbusDeviceContext
  single : Bool
  deriving DecidableEq

/-- A pymodbus `ModbusDeviceIdentification(info={...})`: the info dictionary,
kept in insertion order. -/
structure ModbusDeviceIdentification where
  info : List (Nat × String)
  deriving DecidableEq

/-- The `sockets` attribute a bound asyncio transport may expose: `none`
models a transport without the attribute, otherwise the list of bound
sockets, each reported by its `getsockname()[1]` port. -/
structure Transport where
  sockets : Option (List Nat)
  deriving DecidableEq

/-- The environment `start()` queries after binding: `self.server.transport`
(`none` models a falsy transport). -/
structure BindEnv where
  transport : Option Transport
  deriving DecidableEq

/-- The port `start()` discovers from the bound transport, if any: the
`getsockname()[1]` of the first socket, when the transport is truthy, has a
`sockets` attribute and that list is nonempty. -/
def discoverPort (env : BindEnv) : Option Nat :=
  match env.transport with
  | some t =>
    match t.sockets with
    | some (p :: _) => some p
    | _ => none
  | none => none

/-- An opaque handle standing for a constructed pymodbus server object. -/
inductive ServerHandle where
  | mk
  deriving DecidableEq

namespace ReferenceServer

/-- `ReferenceServer.COIL_COUNT`. -/
def COIL_COUNT : Nat := 1000

/-- `ReferenceServer.DISCRETE_INPUT_COUNT`. -/
def DISCRETE_INPUT_COUNT : Nat := 1000

/-- `ReferenceServer.HOLDING_REGISTER_COUNT`. -/
def HOLDING_REGISTER_COUNT : Nat := 1000

/-- `ReferenceServer.INPUT_REGISTER_COUNT`. -/
def INPUT_REGISTER_COUNT : Nat := 1000

/-- `ReferenceServer.VENDOR_NAME`. -/
def VENDOR_NAME : String := "ModbusKit"

/-- `ReferenceServer.PRODUCT_CODE`. -/
def PRODUCT_CODE : String := "Petro-Rovenskyi"

/-- `ReferenceServer.VENDOR_URL`. -/
def VENDOR_URL : String := "https://petro.rovenskyi.com"

/-- `ReferenceServer.PRODUCT_NAME`. -/
def PRODUCT_NAME : String := "Reference Server"

/-- `ReferenceServer.MODEL_NAME`. -/
def MODEL_NAME : String := "PyModbus Test Server"

/-- `ReferenceServer.MAJOR_MINOR_REVISION`. -/
def MAJOR_MINOR_REVISION : String := "1.0.0"

/-- `coils = [i % 2 == 0 for i in range(self.COIL_COUNT)]`. -/
def coils : List Bool :=
  (List.range COIL_COUNT).map (fun i => decide (i % 2 = 0))

/-- `discrete_inputs = [i < 100 for i in range(self.DISCRETE_INPUT_COUNT)]`. -/
def discrete_inputs : List Bool :=
  (List.range DISCRETE_INPUT_COUNT).map (fun i => decide (i < 100))

/-- `holding_registers = list(range(self.HOLDING_REGISTER_COUNT))`. -/
def holding_registers : List Nat :=
  List.range HOLDING_REGISTER_COUNT

/-- `input_registers = [i * 10 for i in range(self.INPUT_REGISTER_COUNT)]`. -/
def input_registers : List Nat :=
  (List.range INPUT_REGISTER_COUNT).map (fun i => i * 10)

/-- `ReferenceServer._create_datastore`. -/
def create_datastore : ModbusServerContext :=
  { devices :=
      { co := { values := coils }
        di := { values := discrete_inputs }
        hr := { values := holding_registers }
        ir := { values := input_registers } }
    single := true }

/-- `ReferenceServer._create_identity`: numeric object IDs 0x00-0x05 mapped
to the class constants, in the order written in the source. -/
def create_identity : ModbusDeviceIdentification :=
  { info :=
      [ (0x00, VENDOR_NAME),
        (0x01, PRODUCT_CODE),
        (0x02, MAJOR_MINOR_REVISION),
        (0x03, VENDOR_URL),
        (0x04, PRODUCT_NAME),
        (0x05, MODEL_NAME) ] }

/-- The mutable fields of a `ReferenceServer` object. -/
structure State where
  host : String
  port : Nat
  actual_port : Option Nat
  server : Option ServerHandle
  deriving DecidableEq

/-- `ReferenceServer.__init__(host, port)`. -/
def init (host : String) (port : Nat) : State :=
  { host := host, port := port, actual_port := none, server := none }

/-- `ReferenceServer.start`: bind the server, discover the realized port from
the transport's sockets if possible, otherwise fall back to the requested
port; return the updated state and the value of `self.actual_port` that the
method returns. -/
def start (s : State) (env : BindEnv) : State × Option Nat :=
  let s1 : State := { s with server := some ServerHandle.mk }
  let s2 : State :=
    match discoverPort env with
    | some p => { s1 with actual_port := some p }
    | none => s1
  let s3 : State :=
    if s2.actual_port = none then { s2 with actual_port := some s2.port } else s2
  (s3, s3.actual_port)

/-- `ReferenceServer.stop`: shut the server down only when one is bound, then
clear the `server` field; returns the shutdown events performed and the new
state. -/
def stop (s : State) : List Event × State :=
  match s.server with
  | some _ => ([Event.shutdownServer], { s with server := none })
  | none => ([], s)

end ReferenceServer

/-- The value the `port` key receives in the JSON dictionaries (a Python
`int | None`). -/
def portJson : Option Nat → JsonValue
  | some v => JsonValue.num v
  | none => JsonValue.null

namespace ReferenceServer

/-- The body of `main` in `reference_server.py`, as a trace of observable
events, for a run where `start()` completes: print the port line (flushed),
the verbose stderr lines, block on the shutdown event, then (in the
`finally` block) the verbose shutdown note and `server.stop()`.  `ver` is
the imported `pymodbus_version` string. -/
def main (ver host : String) (port : Nat) (verbose : Bool) (env : BindEnv) :
    List Event :=
  let r := start (init host port) env
  [Event.stdoutLine ("MODBUS_PORT=" ++ portString r.2)]
    ++ (if verbose then
          [ Event.stderrLine ("pymodbus version: " ++ ver),
            Event.stderrLine
              ("Server listening on " ++ host ++ ":" ++ portString r.2),
            Event.stderrLine "Press Ctrl+C to stop" ]
        else [])
    ++ [Event.awaitShutdown]
    ++ (if verbose then [Event.stderrLine "Shutting down..."] else [])
    ++ (stop r.1).1

/-- The body of `json_main` in `reference_server.py`: start, print one JSON
object (flushed), block on shutdown, stop. -/
def json_main (ver host : String) (port : Nat) (env : BindEnv) : List Event :=
  let r := start (init host port) env
  [ Event.stdoutJson
      [ ("host", JsonValue.str host),
        ("port", portJson r.2),
        ("pymodbus_version", JsonValue.str ver),
        ("status", JsonValue.str "running") ],
    Event.awaitShutdown ]
    ++ (stop r.1).1

/-- The whole `reference_server.py` process run: the import guard at module
load (prints a diagnostic to stderr and exits 1 when pymodbus is not
installed), then either `json_main` or `main` depending on `--json`; the
event trace is paired with the process exit status. -/
def runProcess (pymodbusInstalled : Bool) (jsonMode : Bool) (ver host : String)
    (port : Nat) (verbose : Bool) (env : BindEnv) : List Event × Nat :=
  if pymodbusInstalled then
    (if jsonMode then json_main ver host port env
     else main ver host port verbose env, 0)
  else
    ([Event.stderrLine
        "ERROR: pymodbus not installed. Run: pip3 install pymodbus>=3.5.0"], 1)

end ReferenceServer

/-- The TLS protocol versions the `ssl` module distinguishes that matter
here. -/
inductive TLSVersion where
  | tls1_0
  | tls1_1
  | tls1_2
  | tls1_3
  deriving DecidableEq

/-- The `ssl` module's certificate-verification modes. -/
inductive VerifyMode where
  | cert_none
  | cert_optional
  | cert_required
  deriving DecidableEq

/-- The configuration state of a Python `ssl.SSLContext` that the TLS server
touches: the minimum protocol version, the loaded server certificate chain
(certfile, keyfile), the loaded CA file, and the client-verification mode. -/
structure SSLContext where
  minimum_version : TLSVersion
  cert_chain : Option (String × String)
  ca_file : Option String
  verify_mode : VerifyMode
  deriving DecidableEq

/-- A fresh `ssl.SSLContext(ssl.PROTOCOL_TLS_SERVER)`: no certificate chain
or CA loaded, `verify_mode` defaulting to `CERT_NONE`.  The context's
minimum version is modelled as TLS 1.0 (a stand-in for the interpreter
default below 1.2); the server overwrites it unconditionally, so the
modelled default value is immaterial to every theorem below. -/
def SSLContext.protocolTlsServer : SSLContext :=
  { minimum_version := TLSVersion.tls1_0,
    cert_chain := none,
    ca_file := none,
    verify_mode := VerifyMode.cert_none }

namespace TLSReferenceServer

/-- `TLSReferenceServer.COIL_COUNT`. -/
def COIL_COUNT : Nat := 1000

/-- `TLSReferenceServer.DISCRETE_INPUT_COUNT`. -/
def DISCRETE_INPUT_COUNT : Nat := 1000

/-- `TLSReferenceServer.HOLDING_REGISTER_COUNT`. -/
def HOLDING_REGISTER_COUNT : Nat := 1000

/-- `TLSReferenceServer.INPUT_REGISTER_COUNT`. -/
def INPUT_REGISTER_COUNT : Nat := 1000

/-- `TLSReferenceServer.VENDOR_NAME`. -/
def VENDOR_NAME : String := "ModbusKit"

/-- `TLSReferenceServer.PRODUCT_CODE`. -/
def PRODUCT_CODE : String := "Petro-Rovenskyi"

/-- `TLSReferenceServer.VENDOR_URL`. -/
def VENDOR_URL : String := "https://petro.rovenskyi.com"

/-- `TLSReferenceServer.PRODUCT_NAME`. -/
def PRODUCT_NAME : String := "TLS Reference Server"

/-- `TLSReferenceServer.MODEL_NAME`. -/
def MODEL_NAME : String := "PyModbus TLS Test Server"

/-- `TLSReferenceServer.MAJOR_MINOR_REVISION`. -/
def MAJOR_MINOR_REVISION : String := "1.0.0"

/-- `coils = [i % 2 == 0 for i in range(self.COIL_COUNT)]`. -/
def coils : List Bool :=
  (List.range COIL_COUNT).map (fun i => decide (i % 2 = 0))

/-- `discrete_inputs = [i < 100 for i in range(self.DISCRETE_INPUT_COUNT)]`. -/
def discrete_inputs : List Bool :=
  (List.range DISCRETE_INPUT_COUNT).map (fun i => decide (i < 100))

/-- `holding_registers = list(range(self.HOLDING_REGISTER_COUNT))`. -/
def holding_registers : List Nat :=
  List.range HOLDING_REGISTER_COUNT

/-- `input_registers = [i * 10 for i in range(self.INPUT_REGISTER_COUNT)]`. -/
def input_registers : List Nat :=
  (List.range INPUT_REGISTER_COUNT).map (fun i => i * 10)

/-- `TLSReferenceServer._create_datastore`. -/
def create_datastore : ModbusServerContext :=
  { devices :=
      { co := { values := coils }
        di := { values := discrete_inputs }
        hr := { values := holding_registers }
        ir := { values := input_registers } }
    single := true }

/-- `TLSReferenceServer._create_identity`. -/
def create_identity : ModbusDeviceIdentification :=
  { info :=
      [ (0x00, VENDOR_NAME),
        (0x01, PRODUCT_CODE),
        (0x02, MAJOR_MINOR_REVISION),
        (0x03, VENDOR_URL),
        (0x04, PRODUCT_NAME),
        (0x05, MODEL_NAME) ] }

/-- `TLSReferenceServer._create_ssl_context`: configure a TLS-server context
with minimum version TLS 1.2, load the certificate chain (raising when the
files are missing from the file system `fs`), and load the CA with
`CERT_OPTIONAL` verification exactly when a CA file was supplied. -/
def create_ssl_context (fs : List String) (certfile keyfile : String)
    (cafile : Option String) : Except String SSLContext :=
  let ctx : SSLContext :=
    { SSLContext.protocolTlsServer with minimum_version := TLSVersion.tls1_2 }
  if certfile ∈ fs ∧ keyfile ∈ fs then
    let ctx2 : SSLContext := { ctx with cert_chain := some (certfile, keyfile) }
    match cafile with
    | some ca =>
      if ca ∈ fs then
        Except.ok
          { ctx2 with ca_file := some ca, verify_mode := VerifyMode.cert_optional }
      else
        Except.error ("FileNotFoundError: " ++ ca)
    | none => Except.ok { ctx2 with verify_mode := VerifyMode.cert_none }
  else
    Except.error "SSLError: unable to load certificate chain"

/-- The mutable fields of a `TLSReferenceServer` object. -/
structure State where
  host : String
  port : Nat
  certfile : String
  keyfile : String
  cafile : Option String
  actual_port : Option Nat
  server : Option ServerHandle
  deriving DecidableEq

/-- `TLSReferenceServer.__init__(host, port, certfile, keyfile, cafile)`. -/
def init (host : String) (port : Nat) (certfile keyfile : String)
    (cafile : Option String) : State :=
  { host := host, port := port, certfile := certfile, keyfile := keyfile,
    cafile := cafile, actual_port := none, server := none }

/-- `TLSReferenceServer.start`: build the SSL context (propagating its
exception before `self.server` is ever assigned), bind, discover the
realized port from the transport's sockets or fall back to the requested
port, and return the updated state with the returned `self.actual_port`. -/
def start (s : State) (fs : List String) (env : BindEnv) :
    Except String (State × Option Nat) :=
  match create_ssl_context fs s.certfile s.keyfile s.cafile with
  | Except.error e => Except.error e
  | Except.ok _ =>
    let s1 : State := { s with server := some ServerHandle.mk }
    let s2 : State :=
      match discoverPort env with
      | some p => { s1 with actual_port := some p }
      | none => s1
    let s3 : State :=
      if s2.actual_port = none then { s2 with actual_port := some s2.port } else s2
    Except.ok (s3, s3.actual_port)

/-- `TLSReferenceServer.stop`: shut the server down only when one is bound,
then clear the `server` field. -/
def stop (s : State) : List Event × State :=
  match s.server with
  | some _ => ([Event.shutdownServer], { s with server := none })
  | none => ([], s)

/-- The body of `main` in `tls_reference_server.py` as an event trace with
exit status.  When `start()` raises, the `finally` block runs first (its
verbose note, then `server.stop()` on a state whose `server` field was never
assigned), then the interpreter prints the traceback to stderr and exits
with status 1. -/
def main (ver host : String) (port : Nat) (certfile keyfile : String)
    (cafile : Option String) (verbose : Bool) (fs : List String)
    (env : BindEnv) : List Event × Nat :=
  match start (init host port certfile keyfile cafile) fs env with
  | Except.error e =>
    ((if verbose then [Event.stderrLine "Shutting down..."] else [])
       ++ (stop (init host port certfile keyfile cafile)).1
       ++ [Event.stderrLine e], 1)
  | Except.ok r =>
    ([Event.stdoutLine ("MODBUS_TLS_PORT=" ++ portString r.2)]
       ++ (if verbose then
             [ Event.stderrLine ("pymodbus version: " ++ ver),
               Event.stderrLine
                 ("TLS Server listening on " ++ host ++ ":" ++ portString r.2),
               Event.stderrLine ("Certificate: " ++ certfile),
               Event.stderrLine "Press Ctrl+C to stop" ]
           else [])
       ++ [Event.awaitShutdown]
       ++ (if verbose then [Event.stderrLine "Shutting down..."] else [])
       ++ (stop r.1).1, 0)

/-- The body of `json_main` in `tls_reference_server.py` (no `try/finally`
there: an exception from `start()` propagates straight to the interpreter,
which prints the traceback to stderr and exits 1). -/
def json_main (ver host : String) (port : Nat) (certfile keyfile : String)
    (cafile : Option String) (fs : List String) (env : BindEnv) :
    List Event × Nat :=
  match start (init host port certfile keyfile cafile) fs env with
  | Except.error e => ([Event.stderrLine e], 1)
  | Except.ok r =>
    ([ Event.stdoutJson
         [ ("host", JsonValue.str host),
           ("port", portJson r.2),
           ("tls", JsonValue.bool true),
           ("certfile", JsonValue.str certfile),
           ("pymodbus_version", JsonValue.str ver),
           ("status", JsonValue.str "running") ],
       Event.awaitShutdown ]
       ++ (stop r.1).1, 0)

/-- The whole `tls_reference_server.py` process run, including the import
guard at module load. -/
def runProcess (pymodbusInstalled : Bool) (jsonMode : Bool) (ver host : String)
    (port : Nat) (certfile keyfile : String) (cafile : Option String)
    (verbose : Bool) (fs : List String) (env : BindEnv) : List Event × Nat :=
  if pymodbusInstalled then
    if jsonMode then json_main ver host port certfile keyfile cafile fs env
    else main ver host port certfile keyfile cafile verbose fs env
  else
    ([Event.stderrLine
        "ERROR: pymodbus not installed. Run: pip3 install pymodbus>=3.5.0"], 1)

end TLSReferenceServer

/-- The seeded coil list holds `decide (i % 2 = 0)` at every index below
`COIL_COUNT`. -/
theorem ReferenceServer.coils_getElem (i : Nat) (hi : i < 1000) :
    ReferenceServer.coils[i]? = some (decide (i % 2 = 0)) := by
  simp [ReferenceServer.coils, ReferenceServer.COIL_COUNT, List.getElem?_map,
    List.getElem?_range, hi]

/-- C1: the datastore seeding is exactly the reference policy — for every
index `i < 1000`, `Coils[i] = (i % 2 == 0)`, `DiscreteInputs[i] = (i < 100)`,
`HoldingRegisters[i] = i`, `InputRegisters[i] = i * 10`; and reading the
seeded store yields the four reference payloads. -/
theorem seeding_matches_reference_policy :
    (∀ i, i < 1000 → ReferenceServer.coils[i]? = some (decide (i % 2 = 0)))
    ∧ (∀ i, i < 1000 →
        ReferenceServer.discrete_inputs[i]? = some (decide (i < 100)))
    ∧ (∀ i, i < 1000 → ReferenceServer.holding_registers[i]? = some i)
    ∧ (∀ i, i < 1000 → ReferenceServer.input_registers[i]? = some (i * 10))
    ∧ ReferenceServer.create_datastore.devices.hr.read 0 5 = some [0, 1, 2, 3, 4]
    ∧ ReferenceServer.create_datastore.devices.ir.read 0 5
        = some [0, 10, 20, 30, 40]
    ∧ ReferenceServer.create_datastore.devices.co.read 0 4
        = some [true, false, true, false]
    ∧ ReferenceServer.create_datastore.devices.di.read 99 2
        = some [true, false] := by
  refine ⟨ReferenceServer.coils_getElem, ?_, ?_, ?_, ?_, ?_, ?_, ?_⟩
  · intro i hi
    simp [ReferenceServer.discrete_inputs, ReferenceServer.DISCRETE_INPUT_COUNT,
      List.getElem?_map, List.getElem?_range, hi]
  · intro i hi
    simp [ReferenceServer.holding_registers,
      ReferenceServer.HOLDING_REGISTER_COUNT, List.getElem?_range, hi]
  · intro i hi
    simp [ReferenceServer.input_registers, ReferenceServer.INPUT_REGISTER_COUNT,
      List.getElem?_map, List.getElem?_range, hi]
  · decide
  · decide
  · decide
  · decide

/-- Witness for the seeding theorem at the concrete index 4. -/
theorem seeding_matches_reference_policy_witness :
    ReferenceServer.coils[4]? = some true :=
  seeding_matches_reference_policy.1 4 (by decide)

/-- C4: the TLS server's datastore seeding builds exactly the same server
context as the plaintext server's, so every read of any of the four spaces
returns the same payload from either store. -/
theorem tls_datastore_equals_plaintext :
    TLSReferenceServer.create_datastore = ReferenceServer.create_datastore
    ∧ (∀ a q, TLSReferenceServer.create_datastore.devices.co.read a q
        = ReferenceServer.create_datastore.devices.co.read a q)
    ∧ (∀ a q, TLSReferenceServer.create_datastore.devices.di.read a q
        = ReferenceServer.create_datastore.devices.di.read a q)
    ∧ (∀ a q, TLSReferenceServer.create_datastore.devices.hr.read a q
        = ReferenceServer.create_datastore.devices.hr.read a q)
    ∧ (∀ a q, TLSReferenceServer.create_datastore.devices.ir.read a q
        = ReferenceServer.create_datastore.devices.ir.read a q) :=
  ⟨rfl, fun _ _ => rfl, fun _ _ => rfl, fun _ _ => rfl, fun _ _ => rfl⟩

/-- C5: both servers' device-identification mappings bind object IDs 0x00
through 0x05, in order, to VendorName, ProductCode, MajorMinorRevision,
VendorUrl, ProductName, ModelName, and object ID 0x00 looks up to the
configured vendor name "ModbusKit" byte-for-byte.  (In the embedding the
mapping is a constant of the program, so it cannot change after
construction.) -/
theorem device_identification_layout :
    ReferenceServer.create_identity.info.map Prod.fst = [0, 1, 2, 3, 4, 5]
    ∧ ReferenceServer.create_identity.info.map Prod.snd
        = [ ReferenceServer.VENDOR_NAME, ReferenceServer.PRODUCT_CODE,
            ReferenceServer.MAJOR_MINOR_REVISION, ReferenceServer.VENDOR_URL,
            ReferenceServer.PRODUCT_NAME, ReferenceServer.MODEL_NAME ]
    ∧ ReferenceServer.create_identity.info.lookup 0x00 = some "ModbusKit"
    ∧ TLSReferenceServer.create_identity.info.map Prod.fst = [0, 1, 2, 3, 4, 5]
    ∧ TLSReferenceServer.create_identity.info.map Prod.snd
        = [ TLSReferenceServer.VENDOR_NAME, TLSReferenceServer.PRODUCT_CODE,
            TLSReferenceServer.MAJOR_MINOR_REVISION,
            TLSReferenceServer.VENDOR_URL, TLSReferenceServer.PRODUCT_NAME,
            TLSReferenceServer.MODEL_NAME ]
    ∧ TLSReferenceServer.create_identity.info.lookup 0x00 = some "ModbusKit" :=
  ⟨rfl, rfl, by decide, rfl, rfl, by decide⟩

/-- The port `start()` ends up returning: the discovered realized port when
the transport exposes one, otherwise the originally requested port. -/
def resolvedPort (requested : Nat) (env : BindEnv) : Nat :=
  (discoverPort env).getD requested

/-- Characterization of `ReferenceServer.start` on a freshly constructed
server. -/
theorem ReferenceServer.tcp_start_init_eq (host : String) (port : Nat)
    (env : BindEnv) :
    ReferenceServer.start (ReferenceServer.init host port) env
      = ({ host := host, port := port,
           actual_port := some (resolvedPort port env),
           server := some ServerHandle.mk },
         some (resolvedPort port env)) := by
  cases h : discoverPort env <;>
    simp [ReferenceServer.start, ReferenceServer.init, resolvedPort, h]

/-- When the certificate and key files exist and no CA file is supplied,
`_create_ssl_context` succeeds with `CERT_NONE` verification. -/
theorem TLSReferenceServer.create_ssl_context_ok_no_ca (fs : List String)
    (certfile keyfile : String) (h1 : certfile ∈ fs) (h2 : keyfile ∈ fs) :
    TLSReferenceServer.create_ssl_context fs certfile keyfile none
      = Except.ok
          { minimum_version := TLSVersion.tls1_2,
            cert_chain := some (certfile, keyfile),
            ca_file := none,
            verify_mode := VerifyMode.cert_none } := by
  simp [TLSReferenceServer.create_ssl_context, SSLContext.protocolTlsServer,
    h1, h2]

/-- When the certificate or the key file is missing, `_create_ssl_context`
raises. -/
theorem TLSReferenceServer.create_ssl_context_missing (fs : List String)
    (certfile keyfile : String) (cafile : Option String)
    (h : certfile ∉ fs ∨ keyfile ∉ fs) :
    TLSReferenceServer.create_ssl_context fs certfile keyfile cafile
      = Except.error "SSLError: unable to load certificate chain" := by
  rcases h with h | h <;> simp [TLSReferenceServer.create_ssl_context, h]

/-- Characterization of `TLSReferenceServer.start` on a freshly constructed
server whose SSL context builds successfully. -/
theorem TLSReferenceServer.tls_start_init_eq (host : String) (port : Nat)
    (certfile keyfile : String) (cafile : Option String) (fs : List String)
    (env : BindEnv) (ctx : SSLContext)
    (hc : TLSReferenceServer.create_ssl_context fs certfile keyfile cafile
            = Except.ok ctx) :
    TLSReferenceServer.start
        (TLSReferenceServer.init host port certfile keyfile cafile) fs env
      = Except.ok
          ({ host := host, port := port, certfile := certfile,
             keyfile := keyfile, cafile := cafile,
             actual_port := some (resolvedPort port env),
             server := some ServerHandle.mk },
           some (resolvedPort port env)) := by
  cases h : discoverPort env <;>
    simp [TLSReferenceServer.start, TLSReferenceServer.init, resolvedPort,
      hc, h]

/-- When the certificate chain cannot be loaded, `start()` propagates the
exception. -/
theorem TLSReferenceServer.start_init_missing (host : String) (port : Nat)
    (certfile keyfile : String) (cafile : Option String) (fs : List String)
    (env : BindEnv) (h : certfile ∉ fs ∨ keyfile ∉ fs) :
    TLSReferenceServer.start
        (TLSReferenceServer.init host port certfile keyfile cafile) fs env
      = Except.error "SSLError: unable to load certificate chain" := by
  simp [TLSReferenceServer.start, TLSReferenceServer.init,
    TLSReferenceServer.create_ssl_context_missing fs certfile keyfile cafile h]

/-- C9: a completed `start()` never returns `None`; when the transport
exposes no sockets to query, the fallback returns the originally requested
port unchanged, for the plaintext and the TLS server alike. -/
theorem start_returns_some_with_port_fallback :
    (∀ (host : String) (port : Nat) (env : BindEnv),
      (ReferenceServer.start (ReferenceServer.init host port) env).2 ≠ none
      ∧ (discoverPort env = none →
          (ReferenceServer.start (ReferenceServer.init host port) env).2
            = some port))
    ∧ (∀ (host : String) (port : Nat) (certfile keyfile : String)
        (cafile : Option String) (fs : List String) (env : BindEnv)
        (r : TLSReferenceServer.State × Option Nat),
      TLSReferenceServer.start
          (TLSReferenceServer.init host port certfile keyfile cafile) fs env
        = Except.ok r →
      r.2 ≠ none ∧ (discoverPort env = none → r.2 = some port)) := by
  constructor
  · intro host port env
    rw [ReferenceServer.tcp_start_init_eq]
    exact ⟨by simp, fun h => by simp [resolvedPort, h]⟩
  · intro host port certfile keyfile cafile fs env r hok
    cases hc : TLSReferenceServer.create_ssl_context fs certfile keyfile cafile with
    | error e =>
      rw [TLSReferenceServer.start, TLSReferenceServer.init] at hok
      simp [hc] at hok
    | ok ctx =>
      rw [TLSReferenceServer.tls_start_init_eq host port certfile keyfile cafile
        fs env ctx hc] at hok
      cases hok
      exact ⟨by simp, fun h => by simp [resolvedPort, h]⟩

/-- Witness for C9 at a concrete fresh plaintext server and a transport
without sockets. -/
theorem start_returns_some_with_port_fallback_witness :
    (ReferenceServer.start (ReferenceServer.init "127.0.0.1" 5020)
        { transport := none }).2 = some 5020 :=
  (start_returns_some_with_port_fallback.1 "127.0.0.1" 5020
    { transport := none }).2 rfl

/-- C10: `stop()` is idempotent for both servers — after a `stop()` the
`server` field is `None`, so a further `stop()` (or a `stop()` on a freshly
constructed server that was never started) performs no shutdown action and
leaves the state unchanged. -/
theorem stop_idempotent :
    (∀ s : ReferenceServer.State,
      ReferenceServer.stop (ReferenceServer.stop s).2
          = ([], (ReferenceServer.stop s).2)
      ∧ ((ReferenceServer.stop s).2).server = none
      ∧ (s.server = none → ReferenceServer.stop s = ([], s)))
    ∧ (∀ (host : String) (port : Nat),
      ReferenceServer.stop (ReferenceServer.init host port)
        = ([], ReferenceServer.init host port))
    ∧ (∀ s : TLSReferenceServer.State,
      TLSReferenceServer.stop (TLSReferenceServer.stop s).2
          = ([], (TLSReferenceServer.stop s).2)
      ∧ ((TLSReferenceServer.stop s).2).server = none
      ∧ (s.server = none → TLSReferenceServer.stop s = ([], s)))
    ∧ (∀ (host : String) (port : Nat) (certfile keyfile : String)
        (cafile : Option String),
      TLSReferenceServer.stop
          (TLSReferenceServer.init host port certfile keyfile cafile)
        = ([], TLSReferenceServer.init host port certfile keyfile cafile)) := by
  refine ⟨fun s => ?_, fun host port => rfl, fun s => ?_,
    fun host port certfile keyfile cafile => rfl⟩
  · rcases s with ⟨host, port, ap, _ | h⟩ <;>
      simp [ReferenceServer.stop]
  · rcases s with ⟨host, port, cf, kf, ca, ap, _ | h⟩ <;>
      simp [TLSReferenceServer.stop]

/-- Witness for C10 on a concrete stopped-twice server state. -/
theorem stop_idempotent_witness :
    ReferenceServer.stop
        { host := "127.0.0.1", port := 0, actual_port := none, server := none }
      = ([], { host := "127.0.0.1", port := 0, actual_port := none,
               server := none }) :=
  (stop_idempotent.1
    { host := "127.0.0.1", port := 0, actual_port := none,
      server := none }).2.2 rfl

/-- The stdout emissions of the plaintext `main` before it blocks on the
shutdown event. -/
theorem ReferenceServer.tcp_main_stdout_before_await (ver host : String)
    (port : Nat) (verbose : Bool) (env : BindEnv) :
    stdoutEvents (beforeAwait (ReferenceServer.main ver host port verbose env))
      = [Event.stdoutLine ("MODBUS_PORT=" ++ portString
          (ReferenceServer.start (ReferenceServer.init host port) env).2)] := by
  cases verbose <;>
    simp [ReferenceServer.main, beforeAwait, stdoutEvents, Event.isAwait,
      Event.isStdout]

/-- The stdout emissions of the TLS `main` before it blocks, when `start()`
completes. -/
theorem TLSReferenceServer.tls_main_stdout_before_await (ver host : String)
    (port : Nat) (certfile keyfile : String) (cafile : Option String)
    (verbose : Bool) (fs : List String) (env : BindEnv)
    (r : TLSReferenceServer.State × Option Nat)
    (hstart : TLSReferenceServer.start
        (TLSReferenceServer.init host port certfile keyfile cafile) fs env
        = Except.ok r) :
    stdoutEvents (beforeAwait
        (TLSReferenceServer.main ver host port certfile keyfile cafile verbose
          fs env).1)
      = [Event.stdoutLine ("MODBUS_TLS_PORT=" ++ portString r.2)] := by
  cases verbose <;>
    simp [TLSReferenceServer.main, hstart, beforeAwait, stdoutEvents,
      Event.isAwait, Event.isStdout]

/-- C2: on a run where `start()` completes, before blocking to serve the
plaintext server prints exactly one stdout line `MODBUS_PORT=<port>` and the
TLS server exactly one line `MODBUS_TLS_PORT=<port>`, where `<port>` is the
value `start()` returned. -/
theorem port_line_printed_once_before_serving :
    (∀ (ver host : String) (port : Nat) (verbose : Bool) (env : BindEnv),
      stdoutEvents (beforeAwait (ReferenceServer.main ver host port verbose env))
        = [Event.stdoutLine ("MODBUS_PORT=" ++ portString
            (ReferenceServer.start (ReferenceServer.init host port) env).2)])
    ∧ (∀ (ver host : String) (port : Nat) (certfile keyfile : String)
        (cafile : Option String) (verbose : Bool) (fs : List String)
        (env : BindEnv) (r : TLSReferenceServer.State × Option Nat),
      TLSReferenceServer.start
          (TLSReferenceServer.init host port certfile keyfile cafile) fs env
        = Except.ok r →
      stdoutEvents (beforeAwait
          (TLSReferenceServer.main ver host port certfile keyfile cafile
            verbose fs env).1)
        = [Event.stdoutLine ("MODBUS_TLS_PORT=" ++ portString r.2)]) :=
  ⟨ReferenceServer.tcp_main_stdout_before_await,
   fun ver host port certfile keyfile cafile verbose fs env r hstart =>
     TLSReferenceServer.tls_main_stdout_before_await ver host port certfile keyfile
       cafile verbose fs env r hstart⟩

/-- Witness for C2 at a concrete TLS run whose certificate files exist and
whose transport realizes port 5020. -/
theorem port_line_printed_once_before_serving_witness :
    stdoutEvents (beforeAwait
        (TLSReferenceServer.main "3.9.2" "127.0.0.1" 0 "certs/server.crt"
          "certs/server.key" none false
          ["certs/server.crt", "certs/server.key"]
          { transport := some { sockets := some [5020] } }).1)
      = [Event.stdoutLine ("MODBUS_TLS_PORT=" ++ portString (some 5020))] :=
  port_line_printed_once_before_serving.2 "3.9.2" "127.0.0.1" 0
    "certs/server.crt" "certs/server.key" none false
    ["certs/server.crt", "certs/server.key"]
    { transport := some { sockets := some [5020] } }
    ({ host := "127.0.0.1", port := 0, certfile := "certs/server.crt",
       keyfile := "certs/server.key", cafile := none,
       actual_port := some 5020, server := some ServerHandle.mk },
     some 5020)
    rfl

/-- C3: in a run started with `--port 0` where `start()` completes with the
transport reporting its realized port (a value the OS draws from
`[1, 65535]`), the port line printed on stdout carries that value, which is
in `[1, 65535]` — for the plaintext and the TLS server. -/
theorem ephemeral_port_printed_in_range :
    (∀ (ver host : String) (verbose : Bool) (env : BindEnv) (p : Nat),
      discoverPort env = some p → 1 ≤ p → p ≤ 65535 →
      stdoutEvents (beforeAwait (ReferenceServer.main ver host 0 verbose env))
          = [Event.stdoutLine ("MODBUS_PORT=" ++ toString p)]
        ∧ 1 ≤ p ∧ p ≤ 65535)
    ∧ (∀ (ver host certfile keyfile : String) (cafile : Option String)
        (verbose : Bool) (fs : List String) (env : BindEnv)
        (ctx : SSLContext) (p : Nat),
      TLSReferenceServer.create_ssl_context fs certfile keyfile cafile
          = Except.ok ctx →
      discoverPort env = some p → 1 ≤ p → p ≤ 65535 →
      stdoutEvents (beforeAwait
          (TLSReferenceServer.main ver host 0 certfile keyfile cafile verbose
            fs env).1)
          = [Event.stdoutLine ("MODBUS_TLS_PORT=" ++ toString p)]
        ∧ 1 ≤ p ∧ p ≤ 65535) := by
  constructor
  · intro ver host verbose env p hp h1 h2
    refine ⟨?_, h1, h2⟩
    rw [ReferenceServer.tcp_main_stdout_before_await, ReferenceServer.tcp_start_init_eq]
    simp [resolvedPort, hp, portString]
  · intro ver host certfile keyfile cafile verbose fs env ctx p hc hp h1 h2
    refine ⟨?_, h1, h2⟩
    rw [TLSReferenceServer.tls_main_stdout_before_await ver host 0 certfile keyfile
      cafile verbose fs env _
      (TLSReferenceServer.tls_start_init_eq host 0 certfile keyfile cafile fs env
        ctx hc)]
    simp [resolvedPort, hp, portString]

/-- Witness for C3 at a concrete plaintext run realizing port 49152. -/
theorem ephemeral_port_printed_in_range_witness :
    stdoutEvents (beforeAwait (ReferenceServer.main "3.9.2" "127.0.0.1" 0 false
        { transport := some { sockets := some [49152] } }))
      = [Event.stdoutLine ("MODBUS_PORT=" ++ toString 49152)]
    ∧ 1 ≤ 49152 ∧ 49152 ≤ 65535 :=
  ephemeral_port_printed_in_range.1 "3.9.2" "127.0.0.1" false
    { transport := some { sockets := some [49152] } } 49152 rfl
    (by decide) (by decide)

/-- Stopping a server emits nothing on stdout (plaintext variant). -/
theorem ReferenceServer.tcp_stop_no_stdout (s : ReferenceServer.State) :
    stdoutEvents (ReferenceServer.stop s).1 = [] := by
  rcases s with ⟨h, p, ap, _ | hdl⟩ <;>
    simp [ReferenceServer.stop, stdoutEvents, Event.isStdout]

/-- Stopping a server emits nothing on stdout (TLS variant). -/
theorem TLSReferenceServer.tls_stop_no_stdout (s : TLSReferenceServer.State) :
    stdoutEvents (TLSReferenceServer.stop s).1 = [] := by
  rcases s with ⟨h, p, cf, kf, ca, ap, _ | hdl⟩ <;>
    simp [TLSReferenceServer.stop, stdoutEvents, Event.isStdout]

/-- C6: whenever `_create_ssl_context` returns a context, that context has
minimum protocol version TLS 1.2 and the server certificate chain loaded,
and its `verify_mode` is `CERT_OPTIONAL` exactly when a CA file was
supplied, `CERT_NONE` otherwise. -/
theorem ssl_context_configuration :
    ∀ (fs : List String) (certfile keyfile : String) (cafile : Option String)
      (ctx : SSLContext),
      TLSReferenceServer.create_ssl_context fs certfile keyfile cafile
          = Except.ok ctx →
      ctx.minimum_version = TLSVersion.tls1_2
      ∧ ctx.cert_chain = some (certfile, keyfile)
      ∧ (ctx.verify_mode = VerifyMode.cert_optional ↔ cafile.isSome = true)
      ∧ (cafile = none → ctx.verify_mode = VerifyMode.cert_none) := by
  intro fs certfile keyfile cafile ctx h
  cases cafile with
  | none =>
    simp only [TLSReferenceServer.create_ssl_context,
      SSLContext.protocolTlsServer] at h
    by_cases hch : certfile ∈ fs ∧ keyfile ∈ fs
    · rw [if_pos hch] at h
      simp only [Except.ok.injEq] at h
      subst h
      exact ⟨rfl, rfl, by simp, fun _ => rfl⟩
    · rw [if_neg hch] at h
      exact absurd h (by simp)
  | some ca =>
    simp only [TLSReferenceServer.create_ssl_context,
      SSLContext.protocolTlsServer] at h
    by_cases hch : certfile ∈ fs ∧ keyfile ∈ fs
    · rw [if_pos hch] at h
      by_cases hca : ca ∈ fs
      · rw [if_pos hca] at h
        simp only [Except.ok.injEq] at h
        subst h
        exact ⟨rfl, rfl, by simp, fun hno => by cases hno⟩
      · rw [if_neg hca] at h
        exact absurd h (by simp)
    · rw [if_neg hch] at h
      exact absurd h (by simp)

/-- Witness for C6 at a concrete file system holding the certificate, key
and CA files. -/
theorem ssl_context_configuration_witness :
    TLSReferenceServer.create_ssl_context
        ["certs/server.crt", "certs/server.key", "certs/ca.crt"]
        "certs/server.crt" "certs/server.key" (some "certs/ca.crt")
      = Except.ok
          { minimum_version := TLSVersion.tls1_2,
            cert_chain := some ("certs/server.crt", "certs/server.key"),
            ca_file := some "certs/ca.crt",
            verify_mode := VerifyMode.cert_optional }
    ∧ ({ minimum_version := TLSVersion.tls1_2,
         cert_chain := some ("certs/server.crt", "certs/server.key"),
         ca_file := some "certs/ca.crt",
         verify_mode := VerifyMode.cert_optional } : SSLContext).minimum_version
        = TLSVersion.tls1_2 :=
  ⟨rfl,
   (ssl_context_configuration
      ["certs/server.crt", "certs/server.key", "certs/ca.crt"]
      "certs/server.crt" "certs/server.key" (some "certs/ca.crt")
      { minimum_version := TLSVersion.tls1_2,
        cert_chain := some ("certs/server.crt", "certs/server.key"),
        ca_file := some "certs/ca.crt",
        verify_mode := VerifyMode.cert_optional } rfl).1⟩

/-- C7: on a startup error — pymodbus not installed, or (TLS variant) the
certificate or key file missing — the process exits with a nonzero status,
emits nothing on standard output (so no `MODBUS_PORT=`/`MODBUS_TLS_PORT=`
line), and a diagnostic line appears on standard error. -/
theorem startup_errors_fatal_before_port_line :
    (∀ (jsonMode : Bool) (ver host : String) (port : Nat) (verbose : Bool)
        (env : BindEnv),
      (ReferenceServer.runProcess false jsonMode ver host port verbose env).2 ≠ 0
      ∧ stdoutEvents
          (ReferenceServer.runProcess false jsonMode ver host port verbose
            env).1 = []
      ∧ (∃ d, Event.stderrLine d
          ∈ (ReferenceServer.runProcess false jsonMode ver host port verbose
              env).1))
    ∧ (∀ (jsonMode : Bool) (ver host : String) (port : Nat)
        (certfile keyfile : String) (cafile : Option String) (verbose : Bool)
        (fs : List String) (env : BindEnv),
      (TLSReferenceServer.runProcess false jsonMode ver host port certfile
          keyfile cafile verbose fs env).2 ≠ 0
      ∧ stdoutEvents
          (TLSReferenceServer.runProcess false jsonMode ver host port certfile
            keyfile cafile verbose fs env).1 = []
      ∧ (∃ d, Event.stderrLine d
          ∈ (TLSReferenceServer.runProcess false jsonMode ver host port
              certfile keyfile cafile verbose fs env).1))
    ∧ (∀ (jsonMode : Bool) (ver host : String) (port : Nat)
        (certfile keyfile : String) (cafile : Option String) (verbose : Bool)
        (fs : List String) (env : BindEnv),
      certfile ∉ fs ∨ keyfile ∉ fs →
      (TLSReferenceServer.runProcess true jsonMode ver host port certfile
          keyfile cafile verbose fs env).2 ≠ 0
      ∧ stdoutEvents
          (TLSReferenceServer.runProcess true jsonMode ver host port certfile
            keyfile cafile verbose fs env).1 = []
      ∧ (∃ d, Event.stderrLine d
          ∈ (TLSReferenceServer.runProcess true jsonMode ver host port
              certfile keyfile cafile verbose fs env).1)) := by
  refine ⟨?_, ?_, ?_⟩
  · intro jsonMode ver host port verbose env
    refine ⟨by simp [ReferenceServer.runProcess], ?_, ?_⟩
    · simp [ReferenceServer.runProcess, stdoutEvents, Event.isStdout]
    · exact ⟨"ERROR: pymodbus not installed. Run: pip3 install pymodbus>=3.5.0",
        by simp [ReferenceServer.runProcess]⟩
  · intro jsonMode ver host port certfile keyfile cafile verbose fs env
    refine ⟨by simp [TLSReferenceServer.runProcess], ?_, ?_⟩
    · simp [TLSReferenceServer.runProcess, stdoutEvents, Event.isStdout]
    · exact ⟨"ERROR: pymodbus not installed. Run: pip3 install pymodbus>=3.5.0",
        by simp [TLSReferenceServer.runProcess]⟩
  · intro jsonMode ver host port certfile keyfile cafile verbose fs env hmiss
    have hstart := TLSReferenceServer.start_init_missing host port certfile
      keyfile cafile fs env hmiss
    simp only [TLSReferenceServer.init] at hstart
    cases jsonMode with
    | false =>
      cases verbose with
      | false =>
        refine ⟨?_, ?_, ?_⟩
        · simp [TLSReferenceServer.runProcess, TLSReferenceServer.main,
            TLSReferenceServer.init, hstart]
        · simp [TLSReferenceServer.runProcess, TLSReferenceServer.main,
            TLSReferenceServer.init, hstart, stdoutEvents, Event.isStdout,
            TLSReferenceServer.stop]
        · exact ⟨"SSLError: unable to load certificate chain",
            by simp [TLSReferenceServer.runProcess, TLSReferenceServer.main,
              TLSReferenceServer.init, hstart, TLSReferenceServer.stop]⟩
      | true =>
        refine ⟨?_, ?_, ?_⟩
        · simp [TLSReferenceServer.runProcess, TLSReferenceServer.main,
            TLSReferenceServer.init, hstart]
        · simp [TLSReferenceServer.runProcess, TLSReferenceServer.main,
            TLSReferenceServer.init, hstart, stdoutEvents, Event.isStdout,
            TLSReferenceServer.stop]
        · exact ⟨"SSLError: unable to load certificate chain",
            by simp [TLSReferenceServer.runProcess, TLSReferenceServer.main,
              TLSReferenceServer.init, hstart, TLSReferenceServer.stop]⟩
    | true =>
      refine ⟨?_, ?_, ?_⟩
      · simp [TLSReferenceServer.runProcess, TLSReferenceServer.json_main,
          TLSReferenceServer.init, hstart]
      · simp [TLSReferenceServer.runProcess, TLSReferenceServer.json_main,
          TLSReferenceServer.init, hstart, stdoutEvents, Event.isStdout]
      · exact ⟨"SSLError: unable to load certificate chain",
          by simp [TLSReferenceServer.runProcess, TLSReferenceServer.json_main,
            TLSReferenceServer.init, hstart]⟩

/-- Witness for C7 at a concrete TLS run whose key file is missing. -/
theorem startup_errors_fatal_before_port_line_witness :
    (TLSReferenceServer.runProcess true false "3.9.2" "0.0.0.0" 802
        "certs/server.crt" "certs/server.key" none false ["certs/server.crt"]
        { transport := none }).2 ≠ 0
    ∧ stdoutEvents
        (TLSReferenceServer.runProcess true false "3.9.2" "0.0.0.0" 802
          "certs/server.crt" "certs/server.key" none false
          ["certs/server.crt"] { transport := none }).1 = []
    ∧ (∃ d, Event.stderrLine d
        ∈ (TLSReferenceServer.runProcess true false "3.9.2" "0.0.0.0" 802
            "certs/server.crt" "certs/server.key" none false
            ["certs/server.crt"] { transport := none }).1) :=
  startup_errors_fatal_before_port_line.2.2 false "3.9.2" "0.0.0.0" 802
    "certs/server.crt" "certs/server.key" none false ["certs/server.crt"]
    { transport := none } (Or.inr (by decide))

/-- C8: in `--json` mode, when `start()` completes with port `p`, the
process prints exactly one JSON object on stdout — containing the keys
`host` (the configured host), `port` (the value `start()` returned) and
`status` with value `running` — and nothing further on stdout until
shutdown, for the plaintext and the TLS server alike. -/
theorem json_mode_prints_single_object :
    (∀ (ver host : String) (port : Nat) (env : BindEnv) (p : Nat),
      (ReferenceServer.start (ReferenceServer.init host port) env).2 = some p →
      ∃ obj, stdoutEvents (ReferenceServer.json_main ver host port env)
          = [Event.stdoutJson obj]
        ∧ obj.lookup "host" = some (JsonValue.str host)
        ∧ obj.lookup "port" = some (JsonValue.num p)
        ∧ obj.lookup "status" = some (JsonValue.str "running"))
    ∧ (∀ (ver host : String) (port : Nat) (certfile keyfile : String)
        (cafile : Option String) (fs : List String) (env : BindEnv)
        (r : TLSReferenceServer.State × Option Nat) (p : Nat),
      TLSReferenceServer.start
          (TLSReferenceServer.init host port certfile keyfile cafile) fs env
        = Except.ok r →
      r.2 = some p →
      ∃ obj, stdoutEvents
            (TLSReferenceServer.json_main ver host port certfile keyfile
              cafile fs env).1
          = [Event.stdoutJson obj]
        ∧ obj.lookup "host" = some (JsonValue.str host)
        ∧ obj.lookup "port" = some (JsonValue.num p)
        ∧ obj.lookup "status" = some (JsonValue.str "running")) := by
  constructor
  · intro ver host port env p hp
    simp only [ReferenceServer.tcp_start_init_eq, Option.some.injEq] at hp
    refine ⟨[ ("host", JsonValue.str host),
              ("port", JsonValue.num p),
              ("pymodbus_version", JsonValue.str ver),
              ("status", JsonValue.str "running") ], ?_, rfl, rfl, rfl⟩
    simp [ReferenceServer.json_main, ReferenceServer.tcp_start_init_eq,
      stdoutEvents, Event.isStdout, ReferenceServer.stop, portJson, hp]
  · intro ver host port certfile keyfile cafile fs env r p hstart hp
    refine ⟨[ ("host", JsonValue.str host),
              ("port", JsonValue.num p),
              ("tls", JsonValue.bool true),
              ("certfile", JsonValue.str certfile),
              ("pymodbus_version", JsonValue.str ver),
              ("status", JsonValue.str "running") ], ?_, rfl, rfl, rfl⟩
    rcases r with ⟨s1, r2⟩
    cases hp
    rcases s1 with ⟨h1, p1, c1, k1, ca1, ap1, srv1⟩
    cases srv1 <;>
      simp [TLSReferenceServer.json_main, hstart, portJson, stdoutEvents,
        Event.isStdout, TLSReferenceServer.stop]

/-- Witness for C8 at a concrete plaintext run realizing port 49152. -/
theorem json_mode_prints_single_object_witness :
    ∃ obj, stdoutEvents (ReferenceServer.json_main "3.9.2" "127.0.0.1" 0
          { transport := some { sockets := some [49152] } })
        = [Event.stdoutJson obj]
      ∧ obj.lookup "host" = some (JsonValue.str "127.0.0.1")
      ∧ obj.lookup "port" = some (JsonValue.num 49152)
      ∧ obj.lookup "status" = some (JsonValue.str "running") :=
  json_mode_prints_single_object.1 "3.9.2" "127.0.0.1" 0
    { transport := some { sockets := some [49152] } } 49152 rfl
